import Mathlib

/-!
Shallow embedding of the gipc interprocess-communication library
(`src/message.rs`, `src/error.rs`, `src/connection/sync.rs`,
`src/connection/async_tokio.rs`).

Bytes are modelled as `Nat` (values below 256 where produced by the
encoders), byte streams as `List Nat`.  A `Connection`'s transport is a
pair of buffers: `input` (bytes still readable, EOF afterwards) and
`output` (bytes written so far).  Fallible operations return
`Except Error`, where `Error` records the error *kind* of the Rust
`Error` enum in `src/error.rs` (`Io`, `Serialise`, `Deserialise`,
`Closed(bool)`; the carried I/O objects and message strings are dropped,
only the classification the spec talks about is kept).

The payload serialisation is the external crate `ciborium` driven by the
serde derive on `enum Message<T>` in `src/message.rs`.  It is modelled by
an abstract per-payload `Codec` (fallible encode, modelling `Serialize`
failures, and fallible decode, modelling `Deserialize` failures) plus the
concrete externally-tagged envelope layout the derive fixes: the unit
variant `ClosingConnection` encodes to a constant byte string that cannot
mention the payload type, and `Data(t)` encodes to a constant variant
header followed by the payload encoding.
-/

namespace gipc

/-- Error kinds of `enum Error` in `src/error.rs` (the `TokioJoin`
variant only wraps task-join failures and never arises in the modelled
operations). -/
inductive Error where
  | Io : Error
  | Serialise : Error
  | Deserialise : Error
  | Closed (byOperation : Bool) : Error
deriving DecidableEq, Repr

/-- Big-endian bytes of `n` as a `u64` (`byteorder::BigEndian`,
`write_u64`): the cast `as u64` wraps modulo `2 ^ 64`, which the
byte-wise divisions realise. -/
def u64be (n : Nat) : List Nat :=
  [n / 2 ^ 56 % 256, n / 2 ^ 48 % 256, n / 2 ^ 40 % 256, n / 2 ^ 32 % 256,
   n / 2 ^ 24 % 256, n / 2 ^ 16 % 256, n / 2 ^ 8 % 256, n % 256]

/-- Big-endian interpretation of a byte list (`read_u64::<BigEndian>`). -/
def fromBE (l : List Nat) : Nat :=
  l.foldl (fun acc b => acc * 256 + b) 0

/-- `raw::serialised_vec` in `src/message.rs`: the 8-byte big-endian
length prefix followed by the data. -/
def serialised_vec (data : List Nat) : List Nat :=
  u64be data.length ++ data

/-- `raw::read_from` in `src/message.rs`: read 8 bytes as a big-endian
`u64` length, then read exactly that many bytes.  `read_u64` and
`read_exact` fail with an I/O error when the stream ends early, consuming
what was available.  On success returns the frame payload and the rest of
the stream. -/
def raw_read_from (stream : List Nat) : Except Error (List Nat × List Nat) :=
  if stream.length < 8 then .error .Io
  else
    let size := fromBE (stream.take 8)
    let rest := stream.drop 8
    if rest.length < size then .error .Io
    else .ok (rest.take size, rest.drop size)

/-- `enum Message<T>` in `src/message.rs`. -/
inductive Message (T : Type) where
  | ClosingConnection : Message T
  | Data (t : T) : Message T
deriving DecidableEq, Repr

/-- Abstract model of the ciborium/serde codec for one payload type:
`enc t = none` models a `Serialize` failure, `dec bs = none` a
`Deserialize` failure. -/
structure Codec (T : Type) where
  enc : T → Option (List Nat)
  dec : List Nat → Option T

/-- CBOR text string of length 17, the characters of
`"ClosingConnection"`: the serde derive encodes the unit variant as its
name and never consults the payload type. -/
def closingConnectionBytes : List Nat :=
  [0x71, 67, 108, 111, 115, 105, 110, 103, 67, 111, 110, 110, 101, 99, 116, 105, 111, 110]

/-- CBOR one-entry map header with key `"Data"`: the serde derive encodes
the newtype variant `Data(t)` as `{ "Data": t }`. -/
def dataVariantHeader : List Nat :=
  [0xA1, 0x64, 68, 97, 116, 97]

/-- ciborium serialisation of a `Message<T>` value, per the serde derive
on `Message` in `src/message.rs`. -/
def encodeMessage (c : Codec T) : Message T → Option (List Nat)
  | .ClosingConnection => some closingConnectionBytes
  | .Data t => (c.enc t).map (fun bs => dataVariantHeader ++ bs)

/-- ciborium deserialisation of a `Message<T>` value from a frame
payload, per the serde derive on `Message` in `src/message.rs`. -/
def decodeMessage (c : Codec T) (bytes : List Nat) : Option (Message T) :=
  if bytes = closingConnectionBytes then some .ClosingConnection
  else if dataVariantHeader.isPrefixOf bytes then
    (c.dec (bytes.drop dataVariantHeader.length)).map (fun t => Message.Data t)
  else none

/-- The codec for the payload type `Message<B>` itself, used by the sync
`send_and_receive`, whose `receive` call instantiates `T = Message<B>`. -/
def messageCodec (c : Codec B) : Codec (Message B) where
  enc := encodeMessage c
  dec := decodeMessage c

/-- The codec for `()` (CBOR `null`), the payload type `close()` uses in
`_send::<()>(Message::ClosingConnection)`. -/
def unitCodec : Codec Unit where
  enc := fun _ => some [0xF6]
  dec := fun bs => if bs = [0xF6] then some () else none

/-- `Message::write_to` in `src/message.rs` as a pure function: serialise
the message (a ciborium failure is reported as `Serialise`), frame it with
`raw::write_to`, and return the bytes written to the writer. -/
def write_to (c : Codec T) (m : Message T) : Except Error (List Nat) :=
  match encodeMessage c m with
  | none => .error .Serialise
  | some ser => .ok (serialised_vec ser)

/-- `Message::read_from` in `src/message.rs`: read one frame with
`raw::read_from`, then deserialise its payload (a ciborium failure is
reported as `Deserialise`).  Returns the message and the rest of the
stream. -/
def read_from (c : Codec T) (stream : List Nat) : Except Error (Message T × List Nat) :=
  match raw_read_from stream with
  | .error e => .error e
  | .ok (payload, rest) =>
    match decodeMessage c payload with
    | none => .error .Deserialise
    | some m => .ok (m, rest)

/-- State of a `Connection` (both `sync::Connection` and the
`ConnectionInner` behind the async `Mutex`): the transport handle is the
readable `input` stream plus the `output` bytes written so far, and
`closed` is the struct's flag.  `ConnectionImpl::close` flushes (sync) or
does nothing (async); neither writes bytes. -/
structure Conn where
  input : List Nat
  output : List Nat
  closed : Bool
deriving DecidableEq, Repr

/-- State of a `Listener` (both forms): the `closed` flag, plus whether
`internal.close()` has been invoked on the transport capability. -/
structure Listener where
  closed : Bool
  transportClosed : Bool
deriving DecidableEq, Repr

/-! ## Synchronous form (`src/connection/sync.rs`) -/

/-- `sync::Connection::send`: guard on `closed`, wrap the data in
`Message::Data`, and `_send` it via `Message::write_to` (which appends
the frame to the transport's output). -/
def syncSend (c : Codec T) (t : T) (s : Conn) : Except Error Unit × Conn :=
  if s.closed then (.error (.Closed false), s)
  else
    match write_to c (Message.Data t) with
    | .error e => (.error e, s)
    | .ok bytes => (.ok (), { s with output := s.output ++ bytes })

/-- `sync::Connection::receive`: guard on `closed`, `_receive` one
message via `Message::read_from`; `Data(t)` yields `t`,
`ClosingConnection` runs `_close` (transport close, which writes nothing,
and `closed := true`) and fails with `Closed(true)`.  A failed read
consumes the bytes the reader took (`read_exact` reads until EOF on a
short stream). -/
def syncReceive (c : Codec T) (s : Conn) : Except Error T × Conn :=
  if s.closed then (.error (.Closed false), s)
  else
    match raw_read_from s.input with
    | .error e => (.error e, { s with input := [] })
    | .ok (payload, rest) =>
      match decodeMessage c payload with
      | none => (.error .Deserialise, { s with input := rest })
      | some .ClosingConnection => (.error (.Closed true), { s with input := rest, closed := true })
      | some (.Data t) => (.ok t, { s with input := rest })

/-- `sync::Connection::send_and_receive`: `self.send(data)?` then
`self.receive()`.  Its return type is `Result<Message<B>>`, so the
`receive` call instantiates its payload type at `Message<B>` and
deserialises the response payload with `messageCodec cb`. -/
def syncSendAndReceive (ca : Codec A) (cb : Codec B) (a : A) (s : Conn) :
    Except Error (Message B) × Conn :=
  match syncSend ca a s with
  | (.error e, s1) => (.error e, s1)
  | (.ok _, s1) => syncReceive (messageCodec cb) s1

/-- `sync::Connection::close`: return immediately when already closed;
otherwise `_send::<()>(Message::ClosingConnection)` discarding the
result, then `_close` (transport flush and `closed := true`). -/
def syncClose (s : Conn) : Conn :=
  if s.closed then s
  else
    let s1 :=
      match write_to unitCodec (Message.ClosingConnection : Message Unit) with
      | .error _ => s
      | .ok bytes => { s with output := s.output ++ bytes }
    { s1 with closed := true }

/-- `impl Drop for sync::Connection`: `self.close()`. -/
def syncConnectionDrop (s : Conn) : Conn :=
  syncClose s

/-- `sync::Listener::accept`: guard on `closed`, then delegate to the
boxed `ListenerImpl` (modelled by its result `internalAccept`; accepting
does not change the listener's own fields). -/
def syncAccept (internalAccept : Except Error Conn) (l : Listener) :
    Except Error Conn × Listener :=
  if l.closed then (.error (.Closed false), l)
  else (internalAccept, l)

/-- `sync::Listener::close`: fail with `Closed(false)` when already
closed; otherwise set `closed := true` ("either way") and return the
result of `internal.close()` (modelled by `internalClose`). -/
def syncListenerClose (internalClose : Except Error Unit) (l : Listener) :
    Except Error Unit × Listener :=
  if l.closed then (.error (.Closed false), l)
  else (internalClose, { closed := true, transportClosed := true })

/-- `impl Drop for sync::Listener`: `let _ = self.close()`. -/
def syncListenerDrop (internalClose : Except Error Unit) (l : Listener) : Listener :=
  (syncListenerClose internalClose l).2

/-! ## Asynchronous form (`src/connection/async_tokio.rs`)

Every method locks the `Mutex` around the whole operation, so a sequence
of logical operations is a sequence of atomic state transformations and
the sequential embedding below is faithful. -/

/-- `async_tokio::Connection::send`: identical logic to the sync form,
through `Message::write_to_async`. -/
def asyncSend (c : Codec T) (t : T) (s : Conn) : Except Error Unit × Conn :=
  if s.closed then (.error (.Closed false), s)
  else
    match write_to c (Message.Data t) with
    | .error e => (.error e, s)
    | .ok bytes => (.ok (), { s with output := s.output ++ bytes })

/-- `async_tokio::Connection::receive`: identical logic to the sync form,
through `Message::read_from_async`. -/
def asyncReceive (c : Codec T) (s : Conn) : Except Error T × Conn :=
  if s.closed then (.error (.Closed false), s)
  else
    match raw_read_from s.input with
    | .error e => (.error e, { s with input := [] })
    | .ok (payload, rest) =>
      match decodeMessage c payload with
      | none => (.error .Deserialise, { s with input := rest })
      | some .ClosingConnection => (.error (.Closed true), { s with input := rest, closed := true })
      | some (.Data t) => (.ok t, { s with input := rest })

/-- `async_tokio::Connection::send_and_receive`: `self.send(data)?` then
`self.receive()`.  Its return type is `Result<B>`, so the `receive` call
instantiates its payload type at `B`. -/
def asyncSendAndReceive (ca : Codec A) (cb : Codec B) (a : A) (s : Conn) :
    Except Error B × Conn :=
  match asyncSend ca a s with
  | (.error e, s1) => (.error e, s1)
  | (.ok _, s1) => asyncReceive cb s1

/-- `async_tokio::Connection::close`: return when already closed;
otherwise `let _ = lock._send::<()>(Message::ClosingConnection);` — the
statement lacks `.await`, so it only constructs the `_send` future and
drops it unpolled: no serialisation happens and no bytes reach the
transport.  Then `_close().await` (transport close, which writes nothing,
and `closed := true`). -/
def asyncClose (s : Conn) : Conn :=
  if s.closed then s
  else { s with closed := true }

/-- `async_tokio::Listener::accept`: identical logic to the sync form. -/
def asyncAccept (internalAccept : Except Error Conn) (l : Listener) :
    Except Error Conn × Listener :=
  if l.closed then (.error (.Closed false), l)
  else (internalAccept, l)

/-- `async_tokio::Listener::close`: identical logic to the sync form. -/
def asyncListenerClose (internalClose : Except Error Unit) (l : Listener) :
    Except Error Unit × Listener :=
  if l.closed then (.error (.Closed false), l)
  else (internalClose, { closed := true, transportClosed := true })

/-- A concrete single-byte payload codec, used to instantiate theorems
with hypotheses at concrete inputs. -/
def byteCodec : Codec Nat where
  enc := fun n => some [n % 256]
  dec := fun bs => match bs with
    | [b] => some b
    | _ => none

/-! ## Framing lemmas -/

theorem fromBE_u64be (n : Nat) (h : n < 2 ^ 64) : fromBE (u64be n) = n := by
  simp only [fromBE, u64be, List.foldl_cons, List.foldl_nil]
  omega

theorem u64be_length (n : Nat) : (u64be n).length = 8 := rfl

theorem raw_read_from_serialised_vec (payload rest : List Nat)
    (h : payload.length < 2 ^ 64) :
    raw_read_from (serialised_vec payload ++ rest) = .ok (payload, rest) := by
  have htake : ((u64be payload.length) ++ (payload ++ rest)).take 8 = u64be payload.length :=
    List.take_left' (u64be_length _)
  have hdrop : ((u64be payload.length) ++ (payload ++ rest)).drop 8 = payload ++ rest :=
    List.drop_left' (u64be_length _)
  have hptake : (payload ++ rest).take payload.length = payload := List.take_left _ _
  have hpdrop : (payload ++ rest).drop payload.length = rest := List.drop_left _ _
  simp only [serialised_vec, List.append_assoc, raw_read_from, htake, hdrop,
    fromBE_u64be _ h, hptake, hpdrop, List.length_append, u64be_length]
  have h1 : ¬ (8 + (payload.length + rest.length) < 8) := by omega
  have h2 : ¬ ((payload ++ rest).length < payload.length) := by
    simp only [List.length_append]; omega
  simp [h1, h2, hptake, hpdrop]

/-! ## Claims -/

/-- C6: the frame decoder reads 8 bytes as a big-endian unsigned length
`n` and then reads exactly `n` further bytes; if the stream ends before
the 8-byte prefix, or before the `n` bytes, are available it fails with
an `Io` error and never returns a truncated byte vector. -/
theorem C6_frame_decoder_exact (stream : List Nat) :
    (stream.length < 8 → raw_read_from stream = .error .Io) ∧
    (8 ≤ stream.length →
      ((stream.drop 8).length < fromBE (stream.take 8) →
        raw_read_from stream = .error .Io) ∧
      (fromBE (stream.take 8) ≤ (stream.drop 8).length →
        raw_read_from stream =
          .ok ((stream.drop 8).take (fromBE (stream.take 8)),
            (stream.drop 8).drop (fromBE (stream.take 8))) ∧
        ((stream.drop 8).take (fromBE (stream.take 8))).length =
          fromBE (stream.take 8))) := by
  refine ⟨fun h => ?_, fun h8 => ⟨fun hshort => ?_, fun hok => ⟨?_, ?_⟩⟩⟩
  · simp [raw_read_from, h]
  · have hs := hshort
    rw [List.length_drop] at hs
    simp [raw_read_from, Nat.not_lt.mpr h8, hs]
  · have hk := hok
    rw [List.length_drop] at hk
    simp [raw_read_from, Nat.not_lt.mpr h8, Nat.not_lt.mpr hk]
  · have hk := hok
    rw [List.length_drop] at hk
    simp [List.length_take, Nat.min_eq_left hk]

/-- Witness for C6 at the spec's malformed-frame scenario: a length
prefix of 5 followed by only 3 bytes, then EOF, fails with `Io`. -/
theorem C6_frame_decoder_exact_witness :
    raw_read_from (u64be 5 ++ [1, 2, 3]) = .error .Io :=
  ((C6_frame_decoder_exact (u64be 5 ++ [1, 2, 3])).2 (by decide)).1 (by decide)

/-- C4: for every payload value the codec can encode (and, as ciborium
guarantees for encodable values, decode back), writing
`Message::Data v` through the envelope-plus-frame pipeline and reading
the written bytes back yields `Message::Data v` again, leaving any
following bytes untouched. -/
theorem C4_data_roundtrip (c : Codec T) (v : T) (bs : List Nat)
    (henc : c.enc v = some bs) (hdec : c.dec bs = some v)
    (h64 : 6 + bs.length < 2 ^ 64) (rest : List Nat) :
    ∃ frame, write_to c (Message.Data v) = .ok frame ∧
      read_from c (frame ++ rest) = .ok (Message.Data v, rest) := by
  refine ⟨serialised_vec (dataVariantHeader ++ bs), ?_, ?_⟩
  · simp [write_to, encodeMessage, henc]
  · have hlen : (dataVariantHeader ++ bs).length < 2 ^ 64 := by
      simp only [List.length_append, dataVariantHeader, List.length_cons,
        List.length_nil]
      omega
    have hne : dataVariantHeader ++ bs ≠ closingConnectionBytes := by
      intro h
      have := congrArg (fun l => l.headI) h
      simp [dataVariantHeader, closingConnectionBytes] at this
    have hpre : dataVariantHeader.isPrefixOf (dataVariantHeader ++ bs) = true := by
      rw [List.isPrefixOf_iff_prefix]
      exact List.prefix_append _ _
    simp [read_from, raw_read_from_serialised_vec _ rest hlen, decodeMessage,
      hne, hpre, List.drop_left, hdec]

/-- Witness for C4 with the concrete single-byte codec and payload 42. -/
theorem C4_data_roundtrip_witness :
    ∃ frame, write_to byteCodec (Message.Data 42) = .ok frame ∧
      read_from byteCodec (frame ++ [9, 9]) = .ok (Message.Data 42, [9, 9]) :=
  C4_data_roundtrip byteCodec 42 [42] rfl rfl (by decide) [9, 9]

/-- C3: in both forms, `receive` fails with `Closed(false)` when the
`closed` flag is set, leaving the connection untouched; otherwise it
reads one envelope: `Data(t)` yields exactly `t` with the flag unchanged,
`ClosingConnection` closes the connection and fails with `Closed(true)`,
and a successful `receive` only ever comes from a `Data` envelope — the
shutdown signal is never surfaced as data. -/
theorem C3_receive_spec (c : Codec T) (s : Conn) :
    (s.closed = true →
      syncReceive c s = (.error (.Closed false), s) ∧
      asyncReceive c s = (.error (.Closed false), s)) ∧
    (s.closed = false →
      asyncReceive c s = syncReceive c s ∧
      (∀ t rest, read_from c s.input = .ok (Message.Data t, rest) →
        syncReceive c s = (.ok t, { s with input := rest })) ∧
      (∀ rest, read_from c s.input = .ok (Message.ClosingConnection, rest) →
        syncReceive c s =
          (.error (.Closed true), { s with input := rest, closed := true })) ∧
      (∀ t s1, syncReceive c s = (.ok t, s1) →
        read_from c s.input = .ok (Message.Data t, s1.input) ∧
        s1.closed = s.closed)) := by
  constructor
  · intro h
    constructor <;> simp [syncReceive, asyncReceive, h]
  · intro h
    refine ⟨rfl, ?_, ?_, ?_⟩
    · intro t rest hr
      simp only [read_from] at hr
      cases hraw : raw_read_from s.input with
      | error e => rw [hraw] at hr; simp at hr
      | ok pr =>
        obtain ⟨payload, rest1⟩ := pr
        rw [hraw] at hr
        dsimp only at hr
        cases hdec : decodeMessage c payload with
        | none => rw [hdec] at hr; simp at hr
        | some m =>
          rw [hdec] at hr
          simp only [Except.ok.injEq, Prod.mk.injEq] at hr
          obtain ⟨hm, hrest⟩ := hr
          subst hrest
          cases m with
          | ClosingConnection => exact absurd hm (by simp)
          | Data d =>
            simp only [Message.Data.injEq] at hm
            subst hm
            simp [syncReceive, h, hraw, hdec]
    · intro rest hr
      simp only [read_from] at hr
      cases hraw : raw_read_from s.input with
      | error e => rw [hraw] at hr; simp at hr
      | ok pr =>
        obtain ⟨payload, rest1⟩ := pr
        rw [hraw] at hr
        dsimp only at hr
        cases hdec : decodeMessage c payload with
        | none => rw [hdec] at hr; simp at hr
        | some m =>
          rw [hdec] at hr
          simp only [Except.ok.injEq, Prod.mk.injEq] at hr
          obtain ⟨hm, hrest⟩ := hr
          subst hrest
          cases m with
          | Data d => exact absurd hm (by simp)
          | ClosingConnection => simp [syncReceive, h, hraw, hdec]
    · intro t s1 hr
      simp only [syncReceive, h, Bool.false_eq_true, if_false] at hr
      cases hraw : raw_read_from s.input with
      | error e => rw [hraw] at hr; simp at hr
      | ok pr =>
        obtain ⟨payload, rest1⟩ := pr
        rw [hraw] at hr
        dsimp only at hr
        cases hdec : decodeMessage c payload with
        | none => rw [hdec] at hr; simp at hr
        | some m =>
          rw [hdec] at hr
          cases m with
          | ClosingConnection => simp at hr
          | Data d =>
            simp only [Except.ok.injEq, Prod.mk.injEq] at hr
            obtain ⟨hd, hs1⟩ := hr
            subst hd
            subst hs1
            refine ⟨?_, h.symm⟩
            simp [read_from, hraw, hdec]

/-- Witness for C3: a closed connection, and an open connection holding a
`Data 42` frame. -/
theorem C3_receive_spec_witness :
    (syncReceive byteCodec { input := [7], output := [], closed := true } =
      (.error (.Closed false), { input := [7], output := [], closed := true })) ∧
    (syncReceive byteCodec
      { input := serialised_vec (dataVariantHeader ++ [42]), output := [],
        closed := false } =
      (.ok 42, { input := [], output := [], closed := false })) := by
  refine ⟨((C3_receive_spec byteCodec _).1 rfl).1, ?_⟩
  exact (((C3_receive_spec byteCodec
    { input := serialised_vec (dataVariantHeader ++ [42]), output := [],
      closed := false }).2 rfl).2.1) 42 [] (by rfl)

/-- C7: on a closed `Connection`, `send` and `receive` fail with
`Closed(false)` leaving the transport and the whole state untouched, in
both forms; on a closed `Listener`, `accept` fails with `Closed(false)`
leaving the listener untouched, in both forms. -/
theorem C7_post_close_guard (c : Codec T) (t : T) (s : Conn) (hs : s.closed = true)
    (ia : Except Error Conn) (l : Listener) (hl : l.closed = true) :
    syncSend c t s = (.error (.Closed false), s) ∧
    syncReceive c s = (.error (.Closed false), s) ∧
    asyncSend c t s = (.error (.Closed false), s) ∧
    asyncReceive c s = (.error (.Closed false), s) ∧
    syncAccept ia l = (.error (.Closed false), l) ∧
    asyncAccept ia l = (.error (.Closed false), l) := by
  simp [syncSend, syncReceive, asyncSend, asyncReceive, syncAccept, asyncAccept,
    hs, hl]

/-- Witness for C7 on a concrete closed connection and listener. -/
theorem C7_post_close_guard_witness :
    syncSend byteCodec 5 { input := [1], output := [2], closed := true } =
      (.error (.Closed false), { input := [1], output := [2], closed := true }) ∧
    syncAccept (.error .Io) { closed := true, transportClosed := false } =
      (.error (.Closed false), { closed := true, transportClosed := false }) :=
  ⟨(C7_post_close_guard byteCodec 5 _ rfl (.error .Io)
      { closed := true, transportClosed := false } rfl).1,
   (C7_post_close_guard byteCodec 5
      { input := [1], output := [2], closed := true } rfl (.error .Io) _ rfl).2.2.2.2.1⟩

/-- C8: the first `Listener::close` transitions to `Closed`, closes the
transport capability and propagates the transport-level close result
unchanged; a second `close` fails with `Closed(false)` — in both forms,
unlike `Connection::close`, it is not idempotent. -/
theorem C8_listener_close_not_idempotent (r r2 : Except Error Unit) (l : Listener)
    (hl : l.closed = false) :
    syncListenerClose r l = (r, { closed := true, transportClosed := true }) ∧
    asyncListenerClose r l = (r, { closed := true, transportClosed := true }) ∧
    syncListenerClose r2 (syncListenerClose r l).2 =
      (.error (.Closed false), { closed := true, transportClosed := true }) ∧
    asyncListenerClose r2 (asyncListenerClose r l).2 =
      (.error (.Closed false), { closed := true, transportClosed := true }) := by
  simp [syncListenerClose, asyncListenerClose, hl]

/-- Witness for C8: a fresh listener whose transport close fails with an
I/O error; the error propagates, and the second close fails with
`Closed(false)`. -/
theorem C8_listener_close_not_idempotent_witness :
    syncListenerClose (.error .Io) { closed := false, transportClosed := false } =
      (.error .Io, { closed := true, transportClosed := true }) ∧
    syncListenerClose (.ok ())
        (syncListenerClose (.error .Io)
          { closed := false, transportClosed := false }).2 =
      (.error (.Closed false), { closed := true, transportClosed := true }) :=
  ⟨(C8_listener_close_not_idempotent (.error .Io) (.ok ()) _ rfl).1,
   (C8_listener_close_not_idempotent (.error .Io) (.ok ()) _ rfl).2.2.1⟩

/-- C9: the `closed` flag is one-way — whenever it is `true` before any
operation of either form (send, receive, send_and_receive, close, drop,
accept, listener close), it is still `true` afterwards, whether the
operation succeeds or fails. -/
theorem C9_closed_flag_one_way (c : Codec T) (ca : Codec A) (cb : Codec B)
    (t : T) (a : A) (s : Conn) (hs : s.closed = true)
    (ia : Except Error Conn) (ic : Except Error Unit) (l : Listener)
    (hl : l.closed = true) :
    (syncSend c t s).2.closed = true ∧
    (syncReceive c s).2.closed = true ∧
    (syncSendAndReceive ca cb a s).2.closed = true ∧
    (syncClose s).closed = true ∧
    (syncConnectionDrop s).closed = true ∧
    (asyncSend c t s).2.closed = true ∧
    (asyncReceive c s).2.closed = true ∧
    (asyncSendAndReceive ca cb a s).2.closed = true ∧
    (asyncClose s).closed = true ∧
    (syncAccept ia l).2.closed = true ∧
    (asyncAccept ia l).2.closed = true ∧
    (syncListenerClose ic l).2.closed = true ∧
    (asyncListenerClose ic l).2.closed = true ∧
    (syncListenerDrop ic l).closed = true := by
  simp [syncSend, syncReceive, syncSendAndReceive, syncClose, syncConnectionDrop,
    asyncSend, asyncReceive, asyncSendAndReceive, asyncClose, syncAccept,
    asyncAccept, syncListenerClose, asyncListenerClose, syncListenerDrop, hs, hl]

/-- Witness for C9 on a concrete closed connection and listener. -/
theorem C9_closed_flag_one_way_witness :
    (syncClose { input := [3], output := [], closed := true }).closed = true ∧
    (syncListenerDrop (.ok ()) { closed := true, transportClosed := true }).closed
      = true :=
  ⟨(C9_closed_flag_one_way byteCodec byteCodec byteCodec 1 2
      { input := [3], output := [], closed := true } rfl (.error .Io) (.ok ())
      { closed := true, transportClosed := true } rfl).2.2.2.1,
   (C9_closed_flag_one_way byteCodec byteCodec byteCodec 1 2
      { input := [3], output := [], closed := true } rfl (.error .Io) (.ok ())
      { closed := true, transportClosed := true } rfl).2.2.2.2.2.2.2.2.2.2.2.2.2⟩

/-- C10: the serialised bytes of the `ClosingConnection` envelope do not
depend on the payload type parameter — any codec encodes it to the bytes
the `()`-typed codec produces; `sync::Connection::close` on an open
connection appends exactly that frame to the wire; and a peer whose
`receive` runs at any payload type decodes that frame as
`ClosingConnection`, surfacing it as `Closed(true)` rather than as
data. -/
theorem C10_closing_frame_type_independent (c : Codec T) (s peer : Conn)
    (hs : s.closed = false) (hpeer : peer.closed = false) (rest : List Nat)
    (hin : peer.input = serialised_vec closingConnectionBytes ++ rest) :
    encodeMessage c (Message.ClosingConnection : Message T) =
      encodeMessage unitCodec (Message.ClosingConnection : Message Unit) ∧
    (syncClose s).output = s.output ++ serialised_vec closingConnectionBytes ∧
    syncReceive c peer =
      (.error (.Closed true), { peer with input := rest, closed := true }) := by
  refine ⟨rfl, ?_, ?_⟩
  · simp [syncClose, hs, write_to, encodeMessage]
  · have hraw : raw_read_from peer.input = .ok (closingConnectionBytes, rest) := by
      rw [hin]
      exact raw_read_from_serialised_vec _ _ (by decide)
    simp [syncReceive, hpeer, hraw, decodeMessage]

/-- Witness for C10 with the single-byte codec: a peer holding exactly
the frame close() writes decodes it as the shutdown signal. -/
theorem C10_closing_frame_type_independent_witness :
    syncReceive byteCodec
      { input := serialised_vec closingConnectionBytes, output := [],
        closed := false } =
      (.error (.Closed true), { input := [], output := [], closed := true }) :=
  (C10_closing_frame_type_independent byteCodec
    { input := [], output := [], closed := false }
    { input := serialised_vec closingConnectionBytes, output := [],
      closed := false }
    rfl rfl [] (by simp)).2.2

/-- C1 fails on the code: for the logical operation sequence `[close]` on
a fresh open connection, the sync form writes the `ClosingConnection`
frame to the transport while the async form writes nothing — the `_send`
call in `async_tokio::Connection::close` lacks `.await`, so the future is
dropped unpolled.  The wire traffic of the two forms differs. -/
theorem C1_close_wire_divergence :
    (syncClose { input := [], output := [], closed := false }).output =
      serialised_vec closingConnectionBytes ∧
    (asyncClose { input := [], output := [], closed := false }).output = [] ∧
    serialised_vec closingConnectionBytes ≠ ([] : List Nat) :=
  ⟨rfl, rfl, by decide⟩

/-- C2 fails on the code in its async half: on an open connection,
`async_tokio::Connection::close` does close the transport and set the
flag, and never fails, but it does not attempt the best-effort
`ClosingConnection` send (the `_send` future is dropped without
`.await`), whereas the sync form attempts it and writes the frame. -/
theorem C2_async_close_sends_nothing :
    asyncClose { input := [], output := [], closed := false } =
      { input := [], output := [], closed := true } ∧
    syncClose { input := [], output := [], closed := false } =
      { input := [], output := serialised_vec closingConnectionBytes,
        closed := true } :=
  ⟨rfl, rfl⟩

/-- C5 fails on the code in its sync half: with the single-byte codec and
a peer response frame `Data 42` queued, a plain sync `receive` returns
`42` and the async `send_and_receive` returns `42`, but the sync
`send_and_receive` — whose return type `Result<Message<B>>` makes its
`receive` call deserialise the response at type `Message<B>` — fails with
`Deserialise` instead of returning the value a plain `receive` yields. -/
theorem C5_sync_send_and_receive_diverges :
    (syncReceive byteCodec
      { input := serialised_vec (dataVariantHeader ++ [42]), output := [],
        closed := false }).1 = .ok 42 ∧
    (asyncSendAndReceive byteCodec byteCodec 7
      { input := serialised_vec (dataVariantHeader ++ [42]), output := [],
        closed := false }).1 = .ok 42 ∧
    (syncSendAndReceive byteCodec byteCodec 7
      { input := serialised_vec (dataVariantHeader ++ [42]), output := [],
        closed := false }).1 = .error .Deserialise :=
  ⟨rfl, rfl, rfl⟩

end gipc
